import Mathlib

/-!
Verification of the human-in-the-loop social-media workflow.

The definitions below are a shallow embedding of the Python sources:
`workflow.py` (the LangGraph state machine), `main.py` (the start driver),
`approve_post.py` (the respond driver) and `twitter_client.py` (the
publisher).  External effects (the Ollama content producer, the Twitter
API call) are modelled as explicit parameters: a `PostGenerator` record of
pure functions, and outcome values describing what the external call did.
-/

/-- The state record of `workflow.py` (`class WorkflowState(TypedDict)`):
article, generated_post, human_feedback, is_approved, is_published,
iteration_count. -/
structure WorkflowState where
  article : String
  generated_post : String
  human_feedback : String
  is_approved : Bool
  is_published : Bool
  iteration_count : Nat
deriving DecidableEq, Repr

/-- The content producer (`post_generator.py`): `generate_post` is the
initial form (article only), `regenerate_post` the revision form
(article plus feedback).  The Ollama backend is modelled as pure
functions supplied by the caller. -/
structure PostGenerator where
  generate_post : String → String
  regenerate_post : String → String → String

/-- What the publisher interaction inside `_publish_post_node` yielded:
`TwitterClient.publish_post` returned a dict with `success = True`
(carrying its `message`), or a dict with `success = False` (carrying its
`error`), or the client raised an exception (carrying `str(e)`). -/
inductive PublishOutcome where
  | ok (message : String)
  | failed (error : String)
  | raised (msg : String)
deriving DecidableEq, Repr

/-- `result["success"]` of the publish interaction. -/
def PublishOutcome.isOk : PublishOutcome → Bool
  | .ok _ => true
  | _ => false

/-- `SocialMediaWorkflow._generate_post_node`: if `human_feedback` is
truthy (non-empty) and `iteration_count > 0`, call the revision form,
else the initial form; store the result in `generated_post` and add 1 to
`iteration_count`. -/
def generate_post_node (pg : PostGenerator) (state : WorkflowState) : WorkflowState :=
  let post :=
    if state.human_feedback ≠ "" ∧ state.iteration_count > 0 then
      pg.regenerate_post state.article state.human_feedback
    else
      pg.generate_post state.article
  { state with generated_post := post, iteration_count := state.iteration_count + 1 }

/-- `SocialMediaWorkflow._wait_for_approval_node`: returns the state
unchanged (it only prints). -/
def wait_for_approval_node (state : WorkflowState) : WorkflowState :=
  state

/-- Python's `str.lower`, character by character. -/
def str_lower (s : String) : String :=
  String.mk (s.data.map Char.toLower)

/-- Python's `str.strip`: remove leading and trailing whitespace
characters. -/
def str_strip (s : String) : String :=
  String.mk (((s.data.dropWhile Char.isWhitespace).reverse.dropWhile Char.isWhitespace).reverse)

/-- The approval token list of `_process_feedback_node`:
`["approve", "yes", "ok", "publish", "y"]`. -/
def approvalTokens : List String :=
  ["approve", "yes", "ok", "publish", "y"]

/-- `SocialMediaWorkflow._process_feedback_node`: the feedback is
`state.get("human_feedback", "").lower().strip()`; if it is in the
approval token list set `is_approved := true`, otherwise
`is_approved := false`. -/
def process_feedback_node (state : WorkflowState) : WorkflowState :=
  let feedback := str_strip (str_lower state.human_feedback)
  if feedback ∈ approvalTokens then
    { state with is_approved := true }
  else
    { state with is_approved := false }

/-- `SocialMediaWorkflow._publish_post_node`: the whole body is wrapped in
`try/except`; on a `success = True` result set `is_published := true`, on
a failure result or a raised exception set `is_published := false`.  The
node never re-raises. -/
def publish_post_node (pub : PublishOutcome) (state : WorkflowState) : WorkflowState :=
  match pub with
  | .ok _ => { state with is_published := true }
  | .failed _ => { state with is_published := false }
  | .raised _ => { state with is_published := false }

/-- The line `_publish_post_node` prints for each publish outcome: the
success message, the failure error after an Error marker, or the raised
exception text after a Failed-to-publish marker. -/
def publish_display : PublishOutcome → String
  | .ok m => "\n✅ " ++ m
  | .failed e => "\n❌ Error: " ++ e
  | .raised e => "\n❌ Failed to publish: " ++ e

/-- `max_iterations = 5` inside `_should_publish`. -/
def max_iterations : Nat := 5

/-- `SocialMediaWorkflow._should_publish`: "publish" if approved, "end" if
`iteration_count >= max_iterations`, "regenerate" otherwise. -/
def should_publish (state : WorkflowState) : String :=
  if state.is_approved then "publish"
  else if state.iteration_count ≥ max_iterations then "end"
  else "regenerate"

/-- The four graph nodes added in `_build_graph`. -/
inductive Node where
  | generate_post
  | wait_for_approval
  | process_feedback
  | publish_post
deriving DecidableEq, Repr

/-- Run one node's function on the state (`_build_graph`'s node table). -/
def runNode (pg : PostGenerator) (pub : PublishOutcome) : Node → WorkflowState → WorkflowState
  | .generate_post, st => generate_post_node pg st
  | .wait_for_approval, st => wait_for_approval_node st
  | .process_feedback, st => process_feedback_node st
  | .publish_post, st => publish_post_node pub st

/-- The edges of `_build_graph`: `generate_post → wait_for_approval →
process_feedback`, then the conditional edges keyed by `_should_publish`
("publish" → `publish_post`, "regenerate" → `generate_post`, "end" →
`END`), and `publish_post → END`.  `none` is `END`.  The conditional
decision reads the state after the node ran. -/
def nextNode (n : Node) (state : WorkflowState) : Option Node :=
  match n with
  | .generate_post => some .wait_for_approval
  | .wait_for_approval => some .process_feedback
  | .process_feedback =>
    if should_publish state = "publish" then some .publish_post
    else if should_publish state = "regenerate" then some .generate_post
    else none
  | .publish_post => none

/-- The graph is compiled by `_build_graph` as
`workflow.compile(checkpointer=self.checkpointer)`: no `interrupt_before`
(and no `interrupt_after`) is passed, so the compiled graph's static
interrupt list is empty. -/
def compiledInterruptBefore : List Node := []

/-- LangGraph's default `recursion_limit` of 25 super-steps, after which
an invocation stops with an error; used as fuel for the execution loop. -/
def recursion_limit : Nat := 25

/-- The result of one graph invocation: ran to `END`, paused before an
interrupt node, or hit the recursion limit. -/
inductive InvokeResult where
  | finished (st : WorkflowState)
  | interrupted (at_node : Node) (st : WorkflowState)
  | outOfFuel (st : WorkflowState)
deriving DecidableEq, Repr

/-- The state carried by an `InvokeResult`. -/
def resultState : InvokeResult → WorkflowState
  | .finished st => st
  | .interrupted _ st => st
  | .outOfFuel st => st

/-- Whether an invocation paused at an interrupt. -/
def isInterrupted : InvokeResult → Bool
  | .interrupted _ _ => true
  | _ => false

/-- One graph invocation (the Pregel loop behind `graph.invoke` /
`graph.stream`): starting at node `n`, repeatedly pause if the next node
is in the interrupt list, otherwise run the node and follow the edges of
`_build_graph` until `END`. -/
def execResult (pg : PostGenerator) (pub : PublishOutcome) (ib : List Node) :
    Nat → Node → WorkflowState → InvokeResult
  | 0, _, st => .outOfFuel st
  | fuel + 1, n, st =>
    if n ∈ ib then .interrupted n st
    else
      match nextNode n (runNode pg pub n st) with
      | none => .finished (runNode pg pub n st)
      | some m => execResult pg pub ib fuel m (runNode pg pub n st)

/-- The list of nodes an invocation actually executes (same loop as
`execResult`, recording the executed nodes). -/
def execNodes (pg : PostGenerator) (pub : PublishOutcome) (ib : List Node) :
    Nat → Node → WorkflowState → List Node
  | 0, _, _ => []
  | fuel + 1, n, st =>
    if n ∈ ib then []
    else
      match nextNode n (runNode pg pub n st) with
      | none => [n]
      | some m => n :: execNodes pg pub ib fuel m (runNode pg pub n st)

/-- The initial state dict built by `SocialMediaWorkflow.run` and by
`main.main`: the article plus empty/zero defaults. -/
def initial_state (article : String) : WorkflowState :=
  { article := article
    generated_post := ""
    human_feedback := ""
    is_approved := false
    is_published := false
    iteration_count := 0 }

namespace SocialMediaWorkflow

/-- `SocialMediaWorkflow.run`: `graph.invoke(initial_state, config)` on the
compiled graph, from the entry point `generate_post`. -/
def run (pg : PostGenerator) (pub : PublishOutcome) (article : String) : InvokeResult :=
  execResult pg pub compiledInterruptBefore recursion_limit .generate_post (initial_state article)

/-- The nodes executed by `SocialMediaWorkflow.run`'s single invocation. -/
def runNodes (pg : PostGenerator) (pub : PublishOutcome) (article : String) : List Node :=
  execNodes pg pub compiledInterruptBefore recursion_limit .generate_post (initial_state article)

end SocialMediaWorkflow

/-- The loop `main.main` drives: stream the graph one executed node at a
time from the entry point, and break out of the stream as soon as the
checkpointed `next` node is `wait_for_approval` (the
`if any("wait_for_approval" in str(node) for node in current_state.next):
break` check).  Breaking abandons the stream, leaving the checkpoint in
place. -/
def mainStartLoop (pg : PostGenerator) (pub : PublishOutcome) :
    Nat → Node → WorkflowState → WorkflowState
  | 0, _, st => st
  | fuel + 1, n, st =>
    match nextNode n (runNode pg pub n st) with
    | none => runNode pg pub n st
    | some m =>
      if m = .wait_for_approval then runNode pg pub n st
      else mainStartLoop pg pub fuel m (runNode pg pub n st)

/-- `main.main`'s start: stream from the entry point on the initial state
and break at the review point.  The publish node cannot run before the
break, so the publish outcome parameter is instantiated with an arbitrary
value. -/
def mainStart (pg : PostGenerator) (article : String) : WorkflowState :=
  mainStartLoop pg (PublishOutcome.failed "") recursion_limit .generate_post (initial_state article)

/-- A checkpointed thread as `graph.get_state` exposes it: the saved
`values` and the pending `next` node (`none` when the run reached `END`). -/
structure ThreadState where
  values : WorkflowState
  next : Option Node
deriving DecidableEq, Repr

/-- The thread checkpoint left behind by `main.main`: the state after
`generate_post`, with `wait_for_approval` pending. -/
def startThread (pg : PostGenerator) (article : String) : ThreadState :=
  { values := mainStart pg article, next := some .wait_for_approval }

/-- One respond round as `approve_post.main` performs it:
`update_state` writes the feedback into the checkpointed values, then
`graph.stream(None, config)` continues from the pending node until the
invocation stops (a no-op when the thread has no pending node).  Returns
the new thread checkpoint and the list of nodes the continuation
executed. -/
def respondThread (pg : PostGenerator) (pub : PublishOutcome) (t : ThreadState)
    (feedback : String) : ThreadState × List Node :=
  match t.next with
  | none => ({ values := { t.values with human_feedback := feedback }, next := none }, [])
  | some n =>
    let st := { t.values with human_feedback := feedback }
    match execResult pg pub compiledInterruptBefore recursion_limit n st with
    | .finished st' =>
      ({ values := st', next := none },
       execNodes pg pub compiledInterruptBefore recursion_limit n st)
    | .interrupted m st' =>
      ({ values := st', next := some m },
       execNodes pg pub compiledInterruptBefore recursion_limit n st)
    | .outOfFuel st' =>
      ({ values := st', next := none },
       execNodes pg pub compiledInterruptBefore recursion_limit n st)

/-- A whole review session on one thread: apply a list of respond rounds
(each with its feedback string and its publish outcome), accumulating how
often the publish node ran. -/
def runRespond (pg : PostGenerator) (t : ThreadState) :
    List (String × PublishOutcome) → ThreadState × Nat
  | [] => (t, 0)
  | (fb, pub) :: rest =>
    let step := respondThread pg pub t fb
    let tail := runRespond pg step.1 rest
    (tail.1, step.2.count Node.publish_post + tail.2)

/-- The thread checkpoint after a start followed by the given respond
rounds. -/
def runThread (pg : PostGenerator) (article : String)
    (inputs : List (String × PublishOutcome)) : ThreadState :=
  (runRespond pg (startThread pg article) inputs).1

/-- How often the publish node ran during a start followed by the given
respond rounds. -/
def runPublishCount (pg : PostGenerator) (article : String)
    (inputs : List (String × PublishOutcome)) : Nat :=
  (runRespond pg (startThread pg article) inputs).2

namespace SocialMediaWorkflow

/-- `SocialMediaWorkflow.resume` / `approve_post.main`'s respond entry:
look the thread up in the checkpoint store; if there is no saved state
(`current_state is None or current_state.values == {}`), raise
`ValueError(f"No workflow state found for thread_id: {thread_id}")`
without touching the store; otherwise write the feedback into the state
and continue the invocation from the pending node, saving the resulting
checkpoint back under the same thread id.  Returns the outcome together
with the resulting store. -/
def resume (pg : PostGenerator) (pub : PublishOutcome)
    (store : String → Option ThreadState) (thread_id feedback : String) :
    Except String WorkflowState × (String → Option ThreadState) :=
  match store thread_id with
  | none =>
    (.error ("No workflow state found for thread_id: " ++ thread_id), store)
  | some t =>
    let step := respondThread pg pub t feedback
    (.ok step.1.values, fun id => if id = thread_id then some step.1 else store id)

end SocialMediaWorkflow

/-- `twitter_client.py`'s client; the authenticated user's screen name is
the only datum `publish_post` reads from it. -/
structure TwitterClient where
  screen_name : String

/-- What the call `self.api.update_status(status=post_text)` did:
returned a tweet id, raised `tweepy.TooManyRequests`, raised
`tweepy.Unauthorized`, or raised some other exception (carrying
`str(e)`). -/
inductive ApiOutcome where
  | posted (id : Nat)
  | tooManyRequests
  | unauthorized
  | raised (msg : String)
deriving DecidableEq, Repr

/-- The dictionary `TwitterClient.publish_post` returns; absent keys are
`none`. -/
structure PublishResult where
  success : Bool
  tweet_id : Option Nat := none
  tweet_url : Option String := none
  text : Option String := none
  message : Option String := none
  error : Option String := none
deriving DecidableEq, Repr

/-- `TwitterClient.publish_post`: if the text exceeds 280 characters,
raise `ValueError("Post is too long (N characters). Twitter limit is 280
characters.")` before calling the API; the exception handlers turn every
raised exception into a `success = False` dict (`tweepy.TooManyRequests`
and `tweepy.Unauthorized` get their own messages; everything else —
including the too-long `ValueError` — gets
`"Failed to publish post: " + str(e)`).  On API success build the tweet
URL and the `success = True` dict. -/
def TwitterClient.publish_post (c : TwitterClient) (post_text : String)
    (api : ApiOutcome) : PublishResult :=
  if post_text.length > 280 then
    { success := false
      error := some ("Failed to publish post: " ++
        ("Post is too long (" ++ toString post_text.length ++
         " characters). Twitter limit is 280 characters.")) }
  else
    match api with
    | .posted id =>
      let tweet_url := "https://twitter.com/" ++ c.screen_name ++ "/status/" ++ toString id
      { success := true
        tweet_id := some id
        tweet_url := some tweet_url
        text := some post_text
        message := some ("Post published successfully! View at: " ++ tweet_url) }
    | .tooManyRequests =>
      { success := false
        error := some "Rate limit exceeded. Please wait before posting again." }
    | .unauthorized =>
      { success := false
        error := some "Unauthorized. Please check your Twitter API credentials." }
    | .raised msg =>
      { success := false
        error := some ("Failed to publish post: " ++ msg) }

/-- Modelled from the spec: the Checkpoint Store `save` contract of
section 4.2 (durably persist `state` as the current snapshot for
`run_id`, overwriting any prior snapshot).  The concrete store in the
source is langgraph's `SqliteSaver`, an external library whose code is
not part of this repository. -/
def checkpoint_save (store : String → Option WorkflowState) (run_id : String)
    (state : WorkflowState) : String → Option WorkflowState :=
  fun id => if id = run_id then some state else store id

/-- Modelled from the spec: the Checkpoint Store `load` contract of
section 4.2 (return the last saved snapshot for `run_id`, or a not-found
signal). -/
def checkpoint_load (store : String → Option WorkflowState) (run_id : String) :
    Option WorkflowState :=
  store run_id

/-- The spec's classification rule, stated in its own words (sections 4.1
and 8): lowercase and trim the feedback and test membership in the
approval token set `{approve, yes, ok, publish, y}`. -/
def spec_is_approved (feedback : String) : Bool :=
  decide (str_strip (str_lower feedback) ∈ (["approve", "yes", "ok", "publish", "y"] : List String))

/-- A concrete content producer used to evaluate the machine on explicit
inputs. -/
def pgDemo : PostGenerator :=
  { generate_post := fun article => "post about " ++ article
    regenerate_post := fun article feedback =>
      "revised(" ++ feedback ++ ") post about " ++ article }

/-! Helper lemmas. -/

theorem string_data_append (a b : String) : (a ++ b).data = a.data ++ b.data := by
  cases a with
  | mk da => cases b with
    | mk db => rfl

theorem append_left_ne_empty (a b : String) (h : a.data ≠ []) : a ++ b ≠ "" := by
  intro he
  apply h
  have hd := congrArg String.data he
  rw [string_data_append] at hd
  exact (List.append_eq_nil.mp hd).1

theorem append_left_ne (a m b : String) (hne : a.data.head? ≠ b.data.head?)
    (ha : a.data ≠ []) : a ++ m ≠ b := by
  intro he
  apply hne
  have hd := congrArg String.data he
  rw [string_data_append] at hd
  rw [← hd, List.head?_append]
  rcases hA : a.data with _ | ⟨c, cs⟩
  · exact absurd hA ha
  · rfl

theorem runNode_iteration_count (pg : PostGenerator) (pub : PublishOutcome)
    (n : Node) (st : WorkflowState) :
    (runNode pg pub n st).iteration_count
      = st.iteration_count + (if n = Node.generate_post then 1 else 0) := by
  cases n with
  | generate_post => simp [runNode, generate_post_node]
  | wait_for_approval => simp [runNode, wait_for_approval_node]
  | process_feedback =>
    simp only [runNode, process_feedback_node]
    split <;> simp
  | publish_post => cases pub <;> simp [runNode, publish_post_node]

theorem runNode_iteration_le (pg : PostGenerator) (pub : PublishOutcome)
    (n : Node) (st : WorkflowState) :
    st.iteration_count ≤ (runNode pg pub n st).iteration_count := by
  rw [runNode_iteration_count]
  exact Nat.le_add_right _ _

theorem execResult_iteration_mono (pg : PostGenerator) (pub : PublishOutcome)
    (ib : List Node) :
    ∀ (fuel : Nat) (n : Node) (st : WorkflowState),
      st.iteration_count ≤ (resultState (execResult pg pub ib fuel n st)).iteration_count := by
  intro fuel
  induction fuel with
  | zero => intro n st; simp [execResult, resultState]
  | succ f ih =>
    intro n st
    by_cases hmem : n ∈ ib
    · simp [execResult, hmem, resultState]
    · simp only [execResult]
      rw [if_neg hmem]
      rcases hnext : nextNode n (runNode pg pub n st) with _ | m
      · simpa [resultState] using runNode_iteration_le pg pub n st
      · exact le_trans (runNode_iteration_le pg pub n st) (ih m _)

theorem execResult_no_interrupt (pg : PostGenerator) (pub : PublishOutcome) :
    ∀ (fuel : Nat) (n : Node) (st : WorkflowState),
      isInterrupted (execResult pg pub compiledInterruptBefore fuel n st) = false := by
  intro fuel
  induction fuel with
  | zero => intro n st; rfl
  | succ f ih =>
    intro n st
    simp only [execResult, compiledInterruptBefore]
    rw [if_neg (List.not_mem_nil n)]
    rcases hnext : nextNode n (runNode pg pub n st) with _ | m
    · rfl
    · exact ih m _

theorem execNodes_count_publish (pg : PostGenerator) (pub : PublishOutcome)
    (ib : List Node) :
    ∀ (fuel : Nat) (n : Node) (st : WorkflowState),
      (execNodes pg pub ib fuel n st).count Node.publish_post ≤ 1 := by
  intro fuel
  induction fuel with
  | zero => intro n st; simp [execNodes]
  | succ f ih =>
    intro n st
    by_cases hmem : n ∈ ib
    · simp [execNodes, hmem]
    · simp only [execNodes]
      rw [if_neg hmem]
      rcases hnext : nextNode n (runNode pg pub n st) with _ | m
      · simpa using List.count_le_length Node.publish_post [n]
      · have hne : n ≠ Node.publish_post := by
          intro he
          subst he
          simp [nextNode] at hnext
        rw [List.count_cons]
        simp [hne]
        exact ih m _

theorem respondThread_next_none (pg : PostGenerator) (pub : PublishOutcome)
    (t : ThreadState) (fb : String) :
    (respondThread pg pub t fb).1.next = none := by
  rcases ht : t.next with _ | n
  · simp [respondThread, ht]
  · simp only [respondThread, ht]
    rcases hr : execResult pg pub compiledInterruptBefore recursion_limit n
        { t.values with human_feedback := fb } with st' | ⟨m, st'⟩ | st'
    · rfl
    · have hni := execResult_no_interrupt pg pub recursion_limit n
        { t.values with human_feedback := fb }
      rw [hr] at hni
      simp [isInterrupted] at hni
    · rfl

theorem respondThread_terminal (pg : PostGenerator) (pub : PublishOutcome)
    (t : ThreadState) (fb : String) (ht : t.next = none) :
    respondThread pg pub t fb
      = ({ values := { t.values with human_feedback := fb }, next := none }, []) := by
  simp [respondThread, ht]

theorem runRespond_terminal (pg : PostGenerator) :
    ∀ (inputs : List (String × PublishOutcome)) (t : ThreadState), t.next = none →
      (runRespond pg t inputs).1.values.is_published = t.values.is_published
      ∧ (runRespond pg t inputs).2 = 0
      ∧ (runRespond pg t inputs).1.next = none := by
  intro inputs
  induction inputs with
  | nil => intro t ht; exact ⟨rfl, rfl, ht⟩
  | cons hd tl ih =>
    intro t ht
    obtain ⟨fb, pub⟩ := hd
    have hstep := respondThread_terminal pg pub t fb ht
    have ih' := ih { values := { t.values with human_feedback := fb }, next := none } rfl
    simp only [runRespond, hstep]
    exact ⟨ih'.1, by simpa using ih'.2.1, ih'.2.2⟩

theorem runRespond_append (pg : PostGenerator) :
    ∀ (xs ys : List (String × PublishOutcome)) (t : ThreadState),
      runRespond pg t (xs ++ ys)
        = ((runRespond pg (runRespond pg t xs).1 ys).1,
           (runRespond pg t xs).2 + (runRespond pg (runRespond pg t xs).1 ys).2) := by
  intro xs
  induction xs with
  | nil => intro ys t; simp [runRespond]
  | cons hd tl ih =>
    intro ys t
    obtain ⟨fb, pub⟩ := hd
    simp only [List.cons_append, runRespond, List.append_eq]
    rw [ih]
    simp [Nat.add_assoc]

theorem runRespond_cons_next_none (pg : PostGenerator) (fb : String)
    (pub : PublishOutcome) (tl : List (String × PublishOutcome)) (t : ThreadState) :
    (runRespond pg t ((fb, pub) :: tl)).1.next = none := by
  simp only [runRespond]
  exact (runRespond_terminal pg tl _ (respondThread_next_none pg pub t fb)).2.2

theorem mainStart_eq (pg : PostGenerator) (article : String) :
    mainStart pg article = generate_post_node pg (initial_state article) := rfl

theorem startThread_is_published (pg : PostGenerator) (article : String) :
    (startThread pg article).values.is_published = false := by
  simp [startThread, mainStart_eq, generate_post_node, initial_state]

theorem respondThread_count_publish (pg : PostGenerator) (pub : PublishOutcome)
    (t : ThreadState) (fb : String) :
    ((respondThread pg pub t fb).2).count Node.publish_post ≤ 1 := by
  rcases ht : t.next with _ | n
  · simp [respondThread, ht]
  · simp only [respondThread, ht]
    rcases hr : execResult pg pub compiledInterruptBefore recursion_limit n
        { t.values with human_feedback := fb } with st' | ⟨m, st'⟩ | st'
    · exact execNodes_count_publish pg pub compiledInterruptBefore recursion_limit n
        { t.values with human_feedback := fb }
    · exact execNodes_count_publish pg pub compiledInterruptBefore recursion_limit n
        { t.values with human_feedback := fb }
    · exact execNodes_count_publish pg pub compiledInterruptBefore recursion_limit n
        { t.values with human_feedback := fb }

/-! Claim theorems. -/

/-- C1: refuted on the code (code bug).  `_build_graph` compiles the graph
without `interrupt_before` and the review node performs no interrupt, so
no invocation of the compiled graph ever suspends; in particular a single
`SocialMediaWorkflow.run` invocation proceeds from the review node
straight into feedback classification and loops until the iteration cap,
finishing with `iteration_count = 5` instead of pausing after the first
generation, contradicting the claimed suspension at `AWAIT_REVIEW` (and
the code's own comments). -/
theorem compiled_graph_never_suspends :
    (∀ (pg : PostGenerator) (pub : PublishOutcome) (fuel : Nat) (n : Node)
       (st : WorkflowState),
       isInterrupted (execResult pg pub compiledInterruptBefore fuel n st) = false)
    ∧ SocialMediaWorkflow.run pgDemo (PublishOutcome.ok "m") "A"
        = InvokeResult.finished
            { article := "A"
              generated_post := "post about A"
              human_feedback := ""
              is_approved := false
              is_published := false
              iteration_count := 5 }
    ∧ Node.process_feedback ∈ SocialMediaWorkflow.runNodes pgDemo (PublishOutcome.ok "m") "A" := by
  exact ⟨fun pg pub => execResult_no_interrupt pg pub, by decide, by decide⟩

/-- C2: the classification step lowercases and strips the feedback and
sets `is_approved` exactly when the result is one of the five approval
tokens, matching the spec's classification rule; the concrete examples
"  Approve ", "YES", "ok", "publish", "y" classify as approved and
"make it shorter" does not. -/
theorem process_feedback_matches_spec :
    (∀ st : WorkflowState,
      (process_feedback_node st).is_approved = spec_is_approved st.human_feedback)
    ∧ spec_is_approved "  Approve " = true
    ∧ spec_is_approved "YES" = true
    ∧ spec_is_approved "ok" = true
    ∧ spec_is_approved "publish" = true
    ∧ spec_is_approved "y" = true
    ∧ spec_is_approved "make it shorter" = false := by
  refine ⟨?_, by decide, by decide, by decide, by decide, by decide, by decide⟩
  intro st
  simp only [process_feedback_node, spec_is_approved, approvalTokens]
  by_cases h : str_strip (str_lower st.human_feedback)
      ∈ (["approve", "yes", "ok", "publish", "y"] : List String)
  · rw [if_pos h]
    simp [h]
  · rw [if_neg h]
    simp [h]

/-- C3: refuted on the code (code bug).  The branch rule itself matches
the code (`max_iterations = 5`; approved goes to publish, exhausted to
end, otherwise regenerate), but because the compiled graph never
suspends, a single respond carrying the non-approval feedback
"make it shorter" runs the classify/regenerate loop to exhaustion: the
thread becomes terminal with `iteration_count = 5`, unpublished, after
the first respond, which executes 4 regeneration rounds internally —
rather than reaching retry-exhaustion only on a 5th respond. -/
theorem single_respond_exhausts_retries :
    max_iterations = 5
    ∧ (respondThread pgDemo (PublishOutcome.ok "m") (startThread pgDemo "A")
        "make it shorter").1
        = { values :=
              { article := "A"
                generated_post := "revised(make it shorter) post about A"
                human_feedback := "make it shorter"
                is_approved := false
                is_published := false
                iteration_count := 5 }
            next := none }
    ∧ ((respondThread pgDemo (PublishOutcome.ok "m") (startThread pgDemo "A")
        "make it shorter").2).count Node.generate_post = 4 := by
  exact ⟨rfl, by decide, by decide⟩

/-- C4: every entry into the generation node stores the producer's output
(the revision form exactly when feedback is non-empty and
`iteration_count > 0`, else the initial form) and adds exactly 1 to
`iteration_count`; after the start driver's first round the count is 1;
no other node changes the count and no invocation decreases it. -/
theorem generate_iteration_discipline :
    (∀ (pg : PostGenerator) (st : WorkflowState),
      (generate_post_node pg st).iteration_count = st.iteration_count + 1)
    ∧ (∀ (pg : PostGenerator) (st : WorkflowState),
      (generate_post_node pg st).generated_post =
        if st.human_feedback ≠ "" ∧ st.iteration_count > 0 then
          pg.regenerate_post st.article st.human_feedback
        else
          pg.generate_post st.article)
    ∧ (∀ (pg : PostGenerator) (article : String),
      (mainStart pg article).iteration_count = 1)
    ∧ (∀ (pg : PostGenerator) (pub : PublishOutcome) (n : Node) (st : WorkflowState),
      (runNode pg pub n st).iteration_count
        = st.iteration_count + (if n = Node.generate_post then 1 else 0))
    ∧ (∀ (pg : PostGenerator) (pub : PublishOutcome) (ib : List Node) (fuel : Nat)
        (n : Node) (st : WorkflowState),
      st.iteration_count ≤ (resultState (execResult pg pub ib fuel n st)).iteration_count) := by
  refine ⟨?_, ?_, ?_, runNode_iteration_count, execResult_iteration_mono⟩
  · intro pg st
    simp [generate_post_node]
  · intro pg st
    rfl
  · intro pg article
    rw [mainStart_eq]
    simp [generate_post_node, initial_state]

/-- C5: across any session on one run — a start followed by arbitrary
respond rounds with arbitrary publish outcomes — the publish node runs at
most once in total; and once `is_published` is true, any further respond
rounds keep it true and never run the publish node again. -/
theorem publish_at_most_once :
    ∀ (pg : PostGenerator) (article : String)
      (inputs extra : List (String × PublishOutcome)),
      runPublishCount pg article inputs ≤ 1
      ∧ ((runThread pg article inputs).values.is_published = true →
          (runThread pg article (inputs ++ extra)).values.is_published = true
          ∧ runPublishCount pg article (inputs ++ extra)
              = runPublishCount pg article inputs) := by
  intro pg article inputs extra
  constructor
  · cases inputs with
    | nil => simp [runPublishCount, runRespond]
    | cons hd tl =>
      obtain ⟨fb, pub⟩ := hd
      simp only [runPublishCount, runRespond]
      have h1 := respondThread_count_publish pg pub (startThread pg article) fb
      have h2 := (runRespond_terminal pg tl
        (respondThread pg pub (startThread pg article) fb).1
        (respondThread_next_none pg pub (startThread pg article) fb)).2.1
      omega
  · intro hpub
    cases inputs with
    | nil =>
      rw [show runThread pg article ([] : List (String × PublishOutcome))
            = startThread pg article from rfl,
          startThread_is_published] at hpub
      cases hpub
    | cons hd tl =>
      obtain ⟨fb, pub⟩ := hd
      simp only [runThread, runPublishCount] at hpub ⊢
      have hnext := runRespond_cons_next_none pg fb pub tl (startThread pg article)
      have hterm := runRespond_terminal pg extra
        (runRespond pg (startThread pg article) ((fb, pub) :: tl)).1 hnext
      have happ := runRespond_append pg ((fb, pub) :: tl) extra (startThread pg article)
      rw [happ]
      exact ⟨hterm.1.trans hpub, by rw [hterm.2.1]; rfl⟩

/-- Witness for C5 at concrete inputs: one approving respond publishes,
and a further respond neither unpublishes nor publishes again. -/
theorem publish_at_most_once_witness :
    runPublishCount pgDemo "A" [("approve", PublishOutcome.ok "m")] ≤ 1
    ∧ (runThread pgDemo "A"
        ([("approve", PublishOutcome.ok "m")] ++ [("x", PublishOutcome.failed "e")])).values.is_published = true
    ∧ runPublishCount pgDemo "A"
        ([("approve", PublishOutcome.ok "m")] ++ [("x", PublishOutcome.failed "e")])
        = runPublishCount pgDemo "A" [("approve", PublishOutcome.ok "m")] := by
  obtain ⟨h1, h2⟩ := publish_at_most_once pgDemo "A"
    [("approve", PublishOutcome.ok "m")] [("x", PublishOutcome.failed "e")]
  obtain ⟨h3, h4⟩ := h2 (by decide)
  exact ⟨h1, h3, h4⟩

/-- C6: a publisher failure — failure dict or raised exception — is
absorbed inside the publish node: the invocation still finishes at `END`,
`is_published` is set exactly on success, `is_approved` and the rest of
the state are untouched, and the failure text is what the node surfaces
for display. -/
theorem publish_failure_contained :
    ∀ (pg : PostGenerator) (pub : PublishOutcome) (st : WorkflowState) (fuel : Nat),
      execResult pg pub compiledInterruptBefore (fuel + 1) .publish_post st
        = InvokeResult.finished (publish_post_node pub st)
      ∧ (publish_post_node pub st).is_published = pub.isOk
      ∧ (publish_post_node pub st).is_approved = st.is_approved
      ∧ (publish_post_node pub st).generated_post = st.generated_post
      ∧ nextNode .publish_post (publish_post_node pub st) = none
      ∧ (∀ e, publish_display (PublishOutcome.failed e) = "\n❌ Error: " ++ e)
      ∧ (∀ e, publish_display (PublishOutcome.raised e) = "\n❌ Failed to publish: " ++ e) := by
  intro pg pub st fuel
  refine ⟨?_, ?_, ?_, ?_, rfl, fun e => rfl, fun e => rfl⟩
  · simp only [execResult, compiledInterruptBefore]
    rw [if_neg (List.not_mem_nil Node.publish_post)]
    rfl
  · cases pub <;> rfl
  · cases pub <;> rfl
  · cases pub <;> rfl

/-- C7: text over 280 characters is rejected with the too-long failure
without consulting the API (the result does not depend on the API
outcome), and the rate-limited, unauthorized and other failure classes
produce pairwise distinct error strings, each also distinct from the
too-long error. -/
theorem publish_post_too_long_and_distinct :
    ∀ (c : TwitterClient),
      (∀ (s : String) (a₁ a₂ : ApiOutcome), 280 < s.length →
        c.publish_post s a₁ = c.publish_post s a₂
        ∧ (c.publish_post s a₁).success = false
        ∧ (c.publish_post s a₁).error
            = some ("Failed to publish post: " ++
                ("Post is too long (" ++ toString s.length ++
                 " characters). Twitter limit is 280 characters.")))
      ∧ (∀ (s m : String), s.length ≤ 280 →
          (c.publish_post s ApiOutcome.tooManyRequests).error
              ≠ (c.publish_post s ApiOutcome.unauthorized).error
          ∧ (c.publish_post s ApiOutcome.tooManyRequests).error
              ≠ (c.publish_post s (ApiOutcome.raised m)).error
          ∧ (c.publish_post s ApiOutcome.unauthorized).error
              ≠ (c.publish_post s (ApiOutcome.raised m)).error)
      ∧ (∀ (s : String) (a : ApiOutcome), 280 < s.length →
          (c.publish_post s a).error
              ≠ some "Rate limit exceeded. Please wait before posting again."
          ∧ (c.publish_post s a).error
              ≠ some "Unauthorized. Please check your Twitter API credentials.") := by
  intro c
  refine ⟨?_, ?_, ?_⟩
  · intro s a₁ a₂ h
    have e₁ : c.publish_post s a₁ =
        { success := false
          error := some ("Failed to publish post: " ++
            ("Post is too long (" ++ toString s.length ++
             " characters). Twitter limit is 280 characters.")) } := by
      unfold TwitterClient.publish_post
      rw [if_pos h]
    have e₂ : c.publish_post s a₂ =
        { success := false
          error := some ("Failed to publish post: " ++
            ("Post is too long (" ++ toString s.length ++
             " characters). Twitter limit is 280 characters.")) } := by
      unfold TwitterClient.publish_post
      rw [if_pos h]
    exact ⟨e₁.trans e₂.symm, by rw [e₁], by rw [e₁]⟩
  · intro s m h
    have hn : ¬(s.length > 280) := not_lt.mpr h
    have et : c.publish_post s ApiOutcome.tooManyRequests =
        { success := false
          error := some "Rate limit exceeded. Please wait before posting again." } := by
      unfold TwitterClient.publish_post
      rw [if_neg hn]
    have eu : c.publish_post s ApiOutcome.unauthorized =
        { success := false
          error := some "Unauthorized. Please check your Twitter API credentials." } := by
      unfold TwitterClient.publish_post
      rw [if_neg hn]
    have er : c.publish_post s (ApiOutcome.raised m) =
        { success := false
          error := some ("Failed to publish post: " ++ m) } := by
      unfold TwitterClient.publish_post
      rw [if_neg hn]
    refine ⟨?_, ?_, ?_⟩
    · rw [et, eu]
      intro hco
      exact absurd (Option.some.inj hco) (by decide)
    · rw [et, er]
      intro hco
      exact append_left_ne "Failed to publish post: " m
        "Rate limit exceeded. Please wait before posting again."
        (by decide) (by decide) (Option.some.inj hco).symm
    · rw [eu, er]
      intro hco
      exact append_left_ne "Failed to publish post: " m
        "Unauthorized. Please check your Twitter API credentials."
        (by decide) (by decide) (Option.some.inj hco).symm
  · intro s a h
    have e : c.publish_post s a =
        { success := false
          error := some ("Failed to publish post: " ++
            ("Post is too long (" ++ toString s.length ++
             " characters). Twitter limit is 280 characters.")) } := by
      unfold TwitterClient.publish_post
      rw [if_pos h]
    rw [e]
    constructor
    · intro hco
      exact append_left_ne "Failed to publish post: " _
        "Rate limit exceeded. Please wait before posting again."
        (by decide) (by decide) (Option.some.inj hco)
    · intro hco
      exact append_left_ne "Failed to publish post: " _
        "Unauthorized. Please check your Twitter API credentials."
        (by decide) (by decide) (Option.some.inj hco)

set_option maxRecDepth 8000 in
/-- Witness for C7 at concrete inputs: a 281-character text fails the
same way under two different API outcomes, and the failure classes are
distinguishable. -/
theorem publish_post_too_long_and_distinct_witness :
    (TwitterClient.mk "user").publish_post (String.mk (List.replicate 281 'a'))
        (ApiOutcome.posted 1)
      = (TwitterClient.mk "user").publish_post (String.mk (List.replicate 281 'a'))
        ApiOutcome.unauthorized
    ∧ ((TwitterClient.mk "user").publish_post "hello" ApiOutcome.tooManyRequests).error
        ≠ ((TwitterClient.mk "user").publish_post "hello" (ApiOutcome.raised "boom")).error
    ∧ ((TwitterClient.mk "user").publish_post (String.mk (List.replicate 281 'a'))
        (ApiOutcome.posted 1)).error
        ≠ some "Rate limit exceeded. Please wait before posting again." := by
  refine ⟨((publish_post_too_long_and_distinct (TwitterClient.mk "user")).1
      (String.mk (List.replicate 281 'a')) (ApiOutcome.posted 1) ApiOutcome.unauthorized
      (by decide)).1,
    ((publish_post_too_long_and_distinct (TwitterClient.mk "user")).2.1 "hello" "boom"
      (by decide)).2.1,
    ((publish_post_too_long_and_distinct (TwitterClient.mk "user")).2.2
      (String.mk (List.replicate 281 'a')) (ApiOutcome.posted 1) (by decide)).1⟩

/-- C8: respond on a thread id with no saved state fails with the
no-state-found error and performs no state mutation: the store is
returned unchanged. -/
theorem resume_unknown_thread :
    ∀ (pg : PostGenerator) (pub : PublishOutcome)
      (store : String → Option ThreadState) (thread_id feedback : String),
      store thread_id = none →
      (SocialMediaWorkflow.resume pg pub store thread_id feedback).1
          = Except.error ("No workflow state found for thread_id: " ++ thread_id)
      ∧ (SocialMediaWorkflow.resume pg pub store thread_id feedback).2 = store := by
  intro pg pub store tid fb h
  constructor <;> simp [SocialMediaWorkflow.resume, h]

/-- Witness for C8 on an empty store. -/
theorem resume_unknown_thread_witness :
    (SocialMediaWorkflow.resume pgDemo (PublishOutcome.ok "m")
        (fun _ => none) "t1" "fb").1
      = Except.error ("No workflow state found for thread_id: " ++ "t1")
    ∧ (SocialMediaWorkflow.resume pgDemo (PublishOutcome.ok "m")
        (fun _ => none) "t1" "fb").2
      = (fun _ => none) :=
  resume_unknown_thread pgDemo (PublishOutcome.ok "m") (fun _ => none) "t1" "fb" rfl

/-- C9: saving a run state under a run id and then loading that id
returns the saved record, equal in all six fields. -/
theorem checkpoint_round_trip :
    ∀ (store : String → Option WorkflowState) (run_id : String) (st : WorkflowState),
      checkpoint_load (checkpoint_save store run_id st) run_id = some st
      ∧ (checkpoint_load (checkpoint_save store run_id st) run_id).map WorkflowState.article
          = some st.article
      ∧ (checkpoint_load (checkpoint_save store run_id st) run_id).map WorkflowState.generated_post
          = some st.generated_post
      ∧ (checkpoint_load (checkpoint_save store run_id st) run_id).map WorkflowState.human_feedback
          = some st.human_feedback
      ∧ (checkpoint_load (checkpoint_save store run_id st) run_id).map WorkflowState.is_approved
          = some st.is_approved
      ∧ (checkpoint_load (checkpoint_save store run_id st) run_id).map WorkflowState.is_published
          = some st.is_published
      ∧ (checkpoint_load (checkpoint_save store run_id st) run_id).map WorkflowState.iteration_count
          = some st.iteration_count := by
  intro store rid st
  have h : checkpoint_load (checkpoint_save store rid st) rid = some st := by
    simp [checkpoint_load, checkpoint_save]
  exact ⟨h, by rw [h]; rfl, by rw [h]; rfl, by rw [h]; rfl,
    by rw [h]; rfl, by rw [h]; rfl, by rw [h]; rfl⟩

/-- C10: the publisher's publish operation is total at its interface: for
every text and every API outcome — including raised exceptions — it
returns a result record; on success it carries a tweet id and url, on
failure a non-empty error string; no case re-raises. -/
theorem publish_post_total :
    ∀ (c : TwitterClient) (s : String) (api : ApiOutcome),
      ((c.publish_post s api).success = true →
        ((c.publish_post s api).tweet_id).isSome = true
        ∧ ((c.publish_post s api).tweet_url).isSome = true)
      ∧ ((c.publish_post s api).success = false →
        ((c.publish_post s api).error).isSome = true
        ∧ (c.publish_post s api).error ≠ some "") := by
  intro c s api
  by_cases h : s.length > 280
  · have e : c.publish_post s api =
        { success := false
          error := some ("Failed to publish post: " ++
            ("Post is too long (" ++ toString s.length ++
             " characters). Twitter limit is 280 characters.")) } := by
      unfold TwitterClient.publish_post
      rw [if_pos h]
    rw [e]
    refine ⟨(fun hs => nomatch hs), fun _ => ⟨rfl, ?_⟩⟩
    intro hco
    exact append_left_ne_empty "Failed to publish post: " _ (by decide) (Option.some.inj hco)
  · cases api with
    | posted id =>
      have e : c.publish_post s (ApiOutcome.posted id) =
          { success := true
            tweet_id := some id
            tweet_url := some ("https://twitter.com/" ++ c.screen_name ++ "/status/" ++ toString id)
            text := some s
            message := some ("Post published successfully! View at: " ++
              ("https://twitter.com/" ++ c.screen_name ++ "/status/" ++ toString id)) } := by
        unfold TwitterClient.publish_post
        rw [if_neg h]
      rw [e]
      exact ⟨fun _ => ⟨rfl, rfl⟩, fun hs => nomatch hs⟩
    | tooManyRequests =>
      have e : c.publish_post s ApiOutcome.tooManyRequests =
          { success := false
            error := some "Rate limit exceeded. Please wait before posting again." } := by
        unfold TwitterClient.publish_post
        rw [if_neg h]
      rw [e]
      exact ⟨(fun hs => nomatch hs), fun _ => ⟨rfl, by decide⟩⟩
    | unauthorized =>
      have e : c.publish_post s ApiOutcome.unauthorized =
          { success := false
            error := some "Unauthorized. Please check your Twitter API credentials." } := by
        unfold TwitterClient.publish_post
        rw [if_neg h]
      rw [e]
      exact ⟨(fun hs => nomatch hs), fun _ => ⟨rfl, by decide⟩⟩
    | raised msg =>
      have e : c.publish_post s (ApiOutcome.raised msg) =
          { success := false
            error := some ("Failed to publish post: " ++ msg) } := by
        unfold TwitterClient.publish_post
        rw [if_neg h]
      rw [e]
      refine ⟨(fun hs => nomatch hs), fun _ => ⟨rfl, ?_⟩⟩
      intro hco
      exact append_left_ne_empty "Failed to publish post: " msg (by decide) (Option.some.inj hco)

/-- Witness for C10 at concrete inputs: a successful publish carries id
and url, a failed one carries a non-empty error. -/
theorem publish_post_total_witness :
    (((TwitterClient.mk "user").publish_post "hi" (ApiOutcome.posted 7)).tweet_id).isSome = true
    ∧ (((TwitterClient.mk "user").publish_post "hi" (ApiOutcome.posted 7)).tweet_url).isSome = true
    ∧ (((TwitterClient.mk "user").publish_post "hi" ApiOutcome.unauthorized).error).isSome = true
    ∧ ((TwitterClient.mk "user").publish_post "hi" ApiOutcome.unauthorized).error ≠ some "" := by
  obtain ⟨h1, h2⟩ := (publish_post_total (TwitterClient.mk "user") "hi"
    (ApiOutcome.posted 7)).1 (by decide)
  obtain ⟨h3, h4⟩ := (publish_post_total (TwitterClient.mk "user") "hi"
    ApiOutcome.unauthorized).2 (by decide)
  exact ⟨h1, h2, h3, h4⟩
